import Mathlib

set_option maxRecDepth 8000

/-!
Verification of the scrape → analyze → fact-check → summarize → editorial
pipeline of this repository (src/main.py) and of the helper functions of
src/app.py, as a shallow embedding.

External collaborators (the Firecrawl fetcher and the OpenAI completion
service) are modelled as oracle functions supplied as parameters; an
oracle outcome of Except.error models the Python call raising an
exception.  Python truthiness of an optional string (None or the empty
string are falsy) is modelled by the function falsy below.  The Streamlit
st.error / st.info / st.success calls are pure display and are not part
of the data flow, so they are not modelled.
-/

/-- Python str.strip with no argument: drop whitespace from both ends.
String.trim does the same but does not reduce in the kernel, so we use an
executable character-list version. -/
def pyStrip (s : String) : String :=
  String.mk (((s.data.dropWhile Char.isWhitespace).reverse.dropWhile Char.isWhitespace).reverse)

/-- Python string slicing s[:n]: the first n characters.  String.take does
the same but its Substring implementation recurses n times in the kernel,
so we use the character-list version. -/
def pyTake (s : String) (n : Nat) : String :=
  String.mk (s.data.take n)

/-- Python truthiness of an optional string: None and the empty string are
falsy, every other string is truthy. -/
def falsy : Option String → Bool
  | none => true
  | some s => s == ""

/-- Byte-for-byte substring containment (the needle occurs literally inside
the haystack). -/
def strContains (needle hay : String) : Prop :=
  needle.data <:+: hay.data

instance (n h : String) : Decidable (strContains n h) :=
  inferInstanceAs (Decidable (n.data <:+: h.data))

/-- Response of the Firecrawl scrape_url call as seen by scrape_website in
src/main.py lines 47-64 and by scrape_url in src/app.py lines 129-152:
either the call raised (exn), or it returned a dict whose optional markdown
field is the value under the key with that name, or it returned something
that is not a dict (other). -/
inductive FcResponse
  | exn (msg : String)
  | dict (markdown : Option String)
  | other
deriving DecidableEq, Repr

/-- scrape_website, src/main.py lines 47-64: return the markdown field of
the scrape response when it is a dict containing that key; any other shape
raises a KeyError which the surrounding except block turns into None, and
an exception from the scrape call itself is also caught and turned into
None. -/
def scrape_website (resp : FcResponse) : Option String :=
  match resp with
  | .dict (some md) => some md
  | .dict none => none
  | .other => none
  | .exn _ => none

/-- The external completion service of src/main.py: given the role, the
task and the user content it either returns generated text or raises. -/
def CompletionOracle : Type :=
  String → String → String → Except String String

/-- generate_completion, src/main.py lines 66-80: on success return the
stripped message content, on exception display the error and return None.
(The system message assembled from role and task is plumbing around the
oracle call and is kept as the two separate oracle arguments.) -/
def generate_completion (o : CompletionOracle) (role task content : String) : Option String :=
  match o role task content with
  | .ok s => some (pyStrip s)
  | .error _ => none

/-- Role string of the analysis stage, src/main.py line 85. -/
def analysisRole : String := "Inhaltsanalyst"

/-- Task string of the analysis stage, src/main.py line 86. -/
def analysisTask : String :=
  "Analysiere den folgenden Nachrichteninhalt und gib wichtige Erkenntnisse, einschließlich Relevanz, Bedeutung und potenzieller Auswirkungen."

/-- Role string of the fact-check stage, src/main.py line 96. -/
def factRole : String := "Faktenprüfer"

/-- Task string of the fact-check stage, src/main.py line 97. -/
def factTask : String :=
  "Überprüfe die faktische Genauigkeit des folgenden Nachrichteninhalts. Hebe eventuelle Unstimmigkeiten hervor oder bestätige die Gültigkeit der Informationen."

/-- Role string of the summary stage, src/main.py line 107. -/
def summaryRole : String := "Zusammenfasser"

/-- Task string of the summary stage, src/main.py line 108. -/
def summaryTask : String :=
  "Erstelle eine prägnante Zusammenfassung des folgenden Nachrichtenartikels. Teile die Zusammenfassung in drei Teile auf: \n1. Zusammenfassung als Text \n2. Die wichtigsten Zitate mit Personen- oder Herkunftsangabe \n3. Die wichtigsten Fakten als kleine Tabelle."

/-- Role string of the editorial stage, src/main.py line 121. -/
def editorRole : String := "Redakteur"

/-- Task string of the editorial stage, src/main.py line 122. -/
def editorTask : String :=
  "Verfasse einen gut strukturierten Editorial-Artikel unter Verwendung der folgenden Analyse, Faktenprüfung, Zusammenfassung und Stil-Anweisungen."

/-- analyze_website_content, src/main.py lines 82-91. -/
def analyze_website_content (o : CompletionOracle) (content : String) : Option String :=
  generate_completion o analysisRole analysisTask content

/-- fact_check_content, src/main.py lines 93-102. -/
def fact_check_content (o : CompletionOracle) (content : String) : Option String :=
  generate_completion o factRole factTask content

/-- summarize_content, src/main.py lines 104-113. -/
def summarize_content (o : CompletionOracle) (content : String) : Option String :=
  generate_completion o summaryRole summaryTask content

/-- One invocation of the completion service: which role and task prompt it
was made with and which user content was delivered to it. -/
structure StageCall where
  role : String
  task : String
  content : String
deriving DecidableEq, Repr

/-- The analysis invocation on the given content. -/
def aCall (content : String) : StageCall := ⟨analysisRole, analysisTask, content⟩

/-- The fact-check invocation on the given content. -/
def fCall (content : String) : StageCall := ⟨factRole, factTask, content⟩

/-- The summary invocation on the given content. -/
def sCall (content : String) : StageCall := ⟨summaryRole, summaryTask, content⟩

/-- The editorial invocation on the given content. -/
def eCall (content : String) : StageCall := ⟨editorRole, editorTask, content⟩

/-- The user content of the editorial stage, src/main.py line 123: the
f-string interpolating analysis, fact check, summary and style
instructions, each behind its literal label. -/
def editorialContent (analysis fact_check summary style_instructions : String) : String :=
  "Analyse: " ++ analysis ++ "\nFaktenprüfung: " ++ fact_check ++ "\nZusammenfassung:\n" ++ summary ++ "\nStil-Anweisungen: " ++ style_instructions

/-- generate_editorial, src/main.py lines 115-127: when any of the four
components is falsy (an empty string here, since the call sites pass
strings) return None without calling the completion service; otherwise
call the service on the labelled concatenation.  The second component of
the result records the completion invocations actually made. -/
def generate_editorial (o : CompletionOracle) (analysis fact_check summary style_instructions : String) :
    Option String × List StageCall :=
  if analysis = "" ∨ fact_check = "" ∨ summary = "" ∨ style_instructions = "" then
    (none, [])
  else
    (generate_completion o editorRole editorTask (editorialContent analysis fact_check summary style_instructions),
     [eCall (editorialContent analysis fact_check summary style_instructions)])

/-- The dict returned by run_agents on full success, src/main.py lines
281-286. -/
structure EditorialResult where
  analyse : String
  faktenpruefung : String
  zusammenfassung : String
  editorial : String
deriving DecidableEq, Repr

/-- The per-document analysis / fact-check / summary sub-chain of
run_agents: lines 214-233 of src/main.py for the first source and the
textually identical lines 247-263 for the second source.  Each stage is
invoked on the scraped content; a falsy stage result (None from an
exception, or text that is empty after stripping) aborts with None.  The
second component records the completion invocations made, in order. -/
def subChain (o : CompletionOracle) (sc : String) :
    Option (String × String × String) × List StageCall :=
  let ra := analyze_website_content o sc
  if falsy ra then (none, [aCall sc])
  else
    let rf := fact_check_content o sc
    if falsy rf then (none, [aCall sc, fCall sc])
    else
      let rs := summarize_content o sc
      if falsy rs then (none, [aCall sc, fCall sc, sCall sc])
      else (some (ra.getD "", rf.getD "", rs.getD ""), [aCall sc, fCall sc, sCall sc])

/-- Label inserted before the second source's analysis, src/main.py line 266. -/
def secondAnalysisLabel : String := "\n\nZusätzliche Analyse der zweiten Quelle:\n"

/-- Label inserted before the second source's fact check, src/main.py line 267. -/
def secondFactLabel : String := "\n\nZusätzliche Faktenprüfung der zweiten Quelle:\n"

/-- Label inserted before the second source's summary, src/main.py line 268. -/
def secondSummaryLabel : String := "\n\nZusätzliche Zusammenfassung der zweiten Quelle:\n"

/-- Final step of run_agents, src/main.py lines 274-286: call
generate_editorial on the (possibly combined) components; a falsy
editorial aborts with None, otherwise the result dict is returned. -/
def finishRun (o : CompletionOracle) (ca cf cs style_instructions : String) (t : List StageCall) :
    Option EditorialResult × List StageCall :=
  match generate_editorial o ca cf cs style_instructions with
  | (re, te) =>
    if falsy re then (none, t ++ te)
    else (some ⟨ca, cf, cs, (re.getD "")⟩, t ++ te)

/-- run_agents, src/main.py lines 205-289.  The fetch oracle maps a URL to
the Firecrawl response; the completion oracle is shared by all stages.
The first component is the returned dict (None on any failure, as in the
source, where every failure path returns None after displaying an error);
the second component is the ordered record of completion-service
invocations actually made.  The enclosing try/except of lines 206/287 only
catches exceptions of the display calls, which are not modelled. -/
def run_agents (fetch : String → FcResponse) (o : CompletionOracle)
    (url style_instructions : String) (second_url : Option String) :
    Option EditorialResult × List StageCall :=
  let sc0 := scrape_website (fetch url)
  if falsy sc0 then (none, [])
  else
    match subChain o (sc0.getD "") with
    | (none, t1) => (none, t1)
    | (some (analysis, fact_check, summary), t1) =>
      match second_url with
      | none => finishRun o analysis fact_check summary style_instructions t1
      | some u2 =>
        let sc20 := scrape_website (fetch u2)
        if falsy sc20 then (none, t1)
        else
          match subChain o (sc20.getD "") with
          | (none, t2) => (none, t1 ++ t2)
          | (some (a2, f2, s2), t2) =>
            finishRun o
              (analysis ++ secondAnalysisLabel ++ a2)
              (fact_check ++ secondFactLabel ++ f2)
              (summary ++ secondSummaryLabel ++ s2)
              style_instructions (t1 ++ t2)

/-- Whether the completion service's response to the given invocation is
falsy (raised, or returned text that is empty after stripping). -/
def respFalsy (o : CompletionOracle) (c : StageCall) : Bool :=
  falsy (generate_completion o c.role c.task c.content)

/-- The declared stage role sequence of one run: analysis, fact check,
summary (doubled when a second source is supplied, since the sub-chain is
run once per document) and then the editorial stage. -/
def declaredRoles : Option String → List String
  | none => [analysisRole, factRole, summaryRole, editorRole]
  | some _ => [analysisRole, factRole, summaryRole, analysisRole, factRole, summaryRole, editorRole]

/-- The analysis output actually threaded onward by the run (the stripped
completion text; only used when the response is not falsy). -/
def aOut (o : CompletionOracle) (sc : String) : String :=
  (analyze_website_content o sc).getD ""

/-- The fact-check output actually threaded onward by the run. -/
def fOut (o : CompletionOracle) (sc : String) : String :=
  (fact_check_content o sc).getD ""

/-- The summary output actually threaded onward by the run. -/
def sOut (o : CompletionOracle) (sc : String) : String :=
  (summarize_content o sc).getD ""

/-- The possible outcomes of the final editorial step, given that the
three content components are non-empty: skipped entirely when the style
instructions are empty, otherwise one completion invocation whose falsy or
truthy response decides between None and the result dict. -/
def finishCases (o : CompletionOracle) (style ca cf cs : String) (t : List StageCall)
    (R : Option EditorialResult × List StageCall) : Prop :=
  (style = "" ∧ R = (none, t)) ∨
  (style ≠ "" ∧
    falsy (generate_completion o editorRole editorTask (editorialContent ca cf cs style)) = true ∧
    R = (none, t ++ [eCall (editorialContent ca cf cs style)])) ∨
  (style ≠ "" ∧
    falsy (generate_completion o editorRole editorTask (editorialContent ca cf cs style)) = false ∧
    R = (some ⟨ca, cf, cs,
          (generate_completion o editorRole editorTask (editorialContent ca cf cs style)).getD ""⟩,
         t ++ [eCall (editorialContent ca cf cs style)]))

/-- The possible ways a run can go through the per-document sub-chain and
fail, with trace prefix t0 already accumulated. -/
def subFailCases (o : CompletionOracle) (sc : String) (t0 : List StageCall)
    (R : Option EditorialResult × List StageCall) : Prop :=
  (falsy (analyze_website_content o sc) = true ∧ R = (none, t0 ++ [aCall sc])) ∨
  (falsy (analyze_website_content o sc) = false ∧
    falsy (fact_check_content o sc) = true ∧ R = (none, t0 ++ [aCall sc, fCall sc])) ∨
  (falsy (analyze_website_content o sc) = false ∧
    falsy (fact_check_content o sc) = false ∧
    falsy (summarize_content o sc) = true ∧
    R = (none, t0 ++ [aCall sc, fCall sc, sCall sc]))

/-- All three sub-chain stages of one document got truthy responses. -/
def subOk (o : CompletionOracle) (sc : String) : Prop :=
  falsy (analyze_website_content o sc) = false ∧
  falsy (fact_check_content o sc) = false ∧
  falsy (summarize_content o sc) = false

instance (o : CompletionOracle) (sc : String) : Decidable (subOk o sc) :=
  inferInstanceAs (Decidable (falsy (analyze_website_content o sc) = false ∧
    falsy (fact_check_content o sc) = false ∧
    falsy (summarize_content o sc) = false))

/-!
Embedding of the helper functions of src/app.py.  The completion
collaborator here takes the assembled system message and the user prompt;
Except.error again models a raised exception.
-/

/-- The system message assembled by generate_completion in src/app.py
line 70. -/
def appSystemMsg (role : String) : String :=
  "You are a " ++ role ++ ". Analyze the content based on the given instructions."

/-- generate_completion, src/app.py lines 64-77: on success the message
content is returned unchanged; an exception is caught, displayed, and
turned into the empty string.  The content parameter of the Python
function is accepted but never used in the messages, which the embedding
mirrors. -/
def app_generate_completion (svc : String → String → Except String String)
    (role prompt content : String) : String :=
  match svc (appSystemMsg role) prompt with
  | .ok s => s
  | .error _ => ""

/-- Result dict of scrape_url in src/app.py lines 129-152: keys objective,
results (the markdown text or None) and optionally error. -/
structure ScrapeUrlResult where
  objective : String
  results : Option String
  error : Option String
deriving DecidableEq, Repr

/-- scrape_url, src/app.py lines 129-152. -/
def app_scrape_url (fc : String → FcResponse) (url objective : String) : ScrapeUrlResult :=
  match fc url with
  | .exn e => ⟨objective, none, some e⟩
  | .dict (some md) =>
    if md = "" then ⟨objective, none, some "No content scraped"⟩
    else ⟨objective, some md, none⟩
  | .dict none => ⟨objective, none, some "Unexpected API response format"⟩
  | .other => ⟨objective, none, some "Unexpected API response format"⟩

/-- Response of the Firecrawl map_url call, src/app.py lines 113-124: the
success flag compared against True, the optional links list and the
optional message (a dict missing the success key behaves like success
false, which the Bool field covers with value false). -/
structure MapResponse where
  success : Bool
  links : List String
  message : Option String

/-- Outcome of the map_url collaborator call: raised or returned. -/
inductive MapOutcome
  | exn (e : String)
  | resp (r : MapResponse)

/-- Result dict of map_url_pages in src/app.py lines 103-127. -/
structure MapUrlResult where
  objective : String
  results : List String
  error : Option String
deriving DecidableEq, Repr

/-- map_url_pages, src/app.py lines 103-127: first a completion call
produces the search query, then the map collaborator is consulted; on
success the first link (if any) is the single result. -/
def map_url_pages (csvc : String → String → Except String String)
    (mapSvc : String → MapOutcome) (url objective : String) : MapUrlResult :=
  let search_query := app_generate_completion csvc "website search query generator"
    ("Generate a 1-2 word search query for the website: " ++ url ++ " based on the objective")
    ("Objective: " ++ objective)
  match mapSvc search_query with
  | .exn e => ⟨objective, [], some e⟩
  | .resp r =>
    if r.success then
      match r.links with
      | [] => ⟨objective, [], none⟩
      | top :: _ => ⟨objective, [top], none⟩
    else ⟨objective, [], some ("Mapping failed: " ++ r.message.getD "Unknown error")⟩

/-- Outcome of the SerpAPI get_dict call in src/app.py line 96: raised, or
the raw results dict of the search service (modelled as an association
list from keys to opaque serialized values). -/
inductive SearchOutcome
  | exn (e : String)
  | resp (d : List (String × String))
deriving DecidableEq, Repr

/-- Return value of search_google, src/app.py lines 79-101: on success the
raw service dict is returned unchanged; on exception the error dict with
keys objective, results (empty) and error is returned. -/
inductive SearchReturn
  | raw (d : List (String × String))
  | errDict (objective : String) (error : String)
deriving DecidableEq, Repr

/-- The value stored under the objective key of the returned dict, if any. -/
def SearchReturn.objectiveVal : SearchReturn → Option String
  | .raw d => d.lookup "objective"
  | .errDict o _ => some o

/-- The engine parameter chosen in src/app.py lines 90-93. -/
def searchEngine (search_type : String) : String :=
  if search_type = "Google News" then "google_news" else "google"

/-- search_google, src/app.py lines 79-101.  The collaborator takes the
query, country, language and engine parameters of lines 83-93. -/
def search_google (svc : String → String → String → String → SearchOutcome)
    (query objective search_type country language : String) : SearchReturn :=
  match svc query country language (searchEngine search_type) with
  | .resp d => .raw d
  | .exn e => .errDict objective e

/-- The analysis instruction options of the selectbox in src/app.py lines
203-212; the Python task variable is assigned in lines 162-169. -/
inductive InstructionOption
  | default
  | german
  | structured
  | summary
deriving DecidableEq, Repr

/-- The task text of each instruction option, src/app.py lines 162-169. -/
def taskFor : InstructionOption → String
  | .default => "Analyze the following website content from one or more URLs and extract key insights based on the objective. Provide a summary of the main points and any relevant details."
  | .german => "Analysiere den folgenden Website-Inhalt von einer oder mehreren URLs und extrahiere wichtige Erkenntnisse basierend auf dem Ziel. Gib eine Zusammenfassung der Hauptpunkte und aller relevanten Details."
  | .structured => "Extrahiere alle Fakten und Kerndaten aus dem folgenden Website-Inhalt. Strukturiere die Informationen als JSON-Ausgabe und inkludiere die Quelle für jede Information. Berücksichtige dabei das gegebene Ziel."
  | .summary => "Schreibe für jeden Inhalt der folgenden Websites eine kurze Zusammenfassung. Berücksichtige dabei das gegebene Ziel und stelle sicher, dass jede Zusammenfassung klar der entsprechenden URL zugeordnet ist."

/-- The base prompt of src/app.py line 160: the objective followed by the
content truncated to its first 24000 characters. -/
def basePrompt (objective content : String) : String :=
  "Ziel: " ++ objective ++ "\n\nInhalt: " ++ pyTake content 24000

/-- The full prompt of src/app.py line 171. -/
def fullPrompt (opt : InstructionOption) (objective content : String) : String :=
  taskFor opt ++ "\n\n" ++ basePrompt objective content

/-- The results value of app.py's analyze_website_content: the analysis
text parsed as JSON when json.loads succeeds (lines 176-179), otherwise
wrapped in a one-key dict. -/
inductive AnalysisResults
  | parsedJson (raw : String)
  | wrapped (analysis : String)
deriving DecidableEq, Repr

/-- Result dict of analyze_website_content in src/app.py lines 154-184. -/
structure AnalyzeResult where
  objective : String
  results : Option AnalysisResults
  error : Option String
deriving DecidableEq, Repr

/-- analyze_website_content, src/app.py lines 154-184.  The jparse
parameter models whether json.loads succeeds on the analysis text (the
JSON grammar itself is external library behavior).  Nothing else in the
body can raise: app_generate_completion catches internally, so the
function's own except branch is unreachable in the model. -/
def app_analyze_website_content (csvc : String → String → Except String String)
    (jparse : String → Bool) (content objective role : String)
    (opt : InstructionOption) : AnalyzeResult :=
  if content = "" then ⟨objective, none, some "No content to analyze"⟩
  else
    let analysis := app_generate_completion csvc role (fullPrompt opt objective content) ""
    ⟨objective,
     some (if jparse analysis then .parsedJson analysis else .wrapped analysis),
     none⟩

lemma falsy_eq_false {x : Option String} (h : falsy x = false) :
    x = some (x.getD "") ∧ x.getD "" ≠ "" := by
  cases x with
  | none => simp [falsy] at h
  | some s =>
    refine ⟨rfl, ?_⟩
    simpa [falsy] using h

lemma string_eq_empty_iff (s : String) : s = "" ↔ s.data = [] := by
  constructor
  · intro h
    rw [h]
  · intro h
    cases s with
    | mk d =>
      show String.mk d = String.mk []
      rw [show d = [] from h]

lemma append3_ne_empty (x y z : String) (h : y ≠ "") : x ++ y ++ z ≠ "" := by
  intro he
  apply h
  have hd : (x ++ y ++ z).data = [] := (string_eq_empty_iff _).mp he
  rw [String.data_append, String.data_append] at hd
  rcases List.append_eq_nil.mp hd with ⟨hd1, hd3⟩
  rcases List.append_eq_nil.mp hd1 with ⟨_, hd2⟩
  exact (string_eq_empty_iff y).mpr hd2

/-- Case analysis of the per-document sub-chain: it fails at the first
stage whose response is falsy, recording exactly the invocations up to and
including that stage, and succeeds with all three outputs otherwise. -/
lemma subChain_char (o : CompletionOracle) (sc : String) :
    (falsy (analyze_website_content o sc) = true ∧
      subChain o sc = (none, [aCall sc])) ∨
    (falsy (analyze_website_content o sc) = false ∧
      falsy (fact_check_content o sc) = true ∧
      subChain o sc = (none, [aCall sc, fCall sc])) ∨
    (falsy (analyze_website_content o sc) = false ∧
      falsy (fact_check_content o sc) = false ∧
      falsy (summarize_content o sc) = true ∧
      subChain o sc = (none, [aCall sc, fCall sc, sCall sc])) ∨
    (falsy (analyze_website_content o sc) = false ∧
      falsy (fact_check_content o sc) = false ∧
      falsy (summarize_content o sc) = false ∧
      subChain o sc = (some (aOut o sc, fOut o sc, sOut o sc), [aCall sc, fCall sc, sCall sc])) := by
  by_cases hA : falsy (analyze_website_content o sc) = true
  · exact Or.inl ⟨hA, by simp [subChain, hA]⟩
  · have hA' : falsy (analyze_website_content o sc) = false := by simpa using hA
    by_cases hF : falsy (fact_check_content o sc) = true
    · exact Or.inr (Or.inl ⟨hA', hF, by simp [subChain, hA', hF]⟩)
    · have hF' : falsy (fact_check_content o sc) = false := by simpa using hF
      by_cases hS : falsy (summarize_content o sc) = true
      · exact Or.inr (Or.inr (Or.inl ⟨hA', hF', hS, by simp [subChain, hA', hF', hS]⟩))
      · have hS' : falsy (summarize_content o sc) = false := by simpa using hS
        exact Or.inr (Or.inr (Or.inr ⟨hA', hF', hS',
          by simp [subChain, hA', hF', hS', aOut, fOut, sOut]⟩))


lemma finishRun_char (o : CompletionOracle) (ca cf cs style : String) (t : List StageCall)
    (hca : ca ≠ "") (hcf : cf ≠ "") (hcs : cs ≠ "") :
    finishCases o style ca cf cs t (finishRun o ca cf cs style t) := by
  by_cases hst : style = ""
  · left
    exact ⟨hst, by simp [finishRun, generate_editorial, hst, falsy]⟩
  · by_cases hre : falsy (generate_completion o editorRole editorTask
        (editorialContent ca cf cs style)) = true
    · right; left
      exact ⟨hst, hre, by simp [finishRun, generate_editorial, hca, hcf, hcs, hst, hre]⟩
    · have hre' : falsy (generate_completion o editorRole editorTask
          (editorialContent ca cf cs style)) = false := by simpa using hre
      right; right
      exact ⟨hst, hre', by simp [finishRun, generate_editorial, hca, hcf, hcs, hst, hre']⟩




lemma run_agents_fetchFail (fetch : String → FcResponse) (o : CompletionOracle)
    (url style : String) (su : Option String)
    (h : falsy (scrape_website (fetch url)) = true) :
    run_agents fetch o url style su = (none, []) := by
  simp [run_agents, h]

lemma falsy_some_of_ne {s : String} (h : s ≠ "") : falsy (some s) = false := by
  simp [falsy, h]

lemma run_subFail (fetch : String → FcResponse) (o : CompletionOracle)
    (url style : String) (su : Option String) (sc : String) (t1 : List StageCall)
    (hsc : scrape_website (fetch url) = some sc) (hne : sc ≠ "")
    (hsub : subChain o sc = (none, t1)) :
    run_agents fetch o url style su = (none, t1) := by
  have h1 : falsy (some sc) = false := falsy_some_of_ne hne
  cases su <;> simp [run_agents, hsc, h1, hsub]

lemma run_single_subOk (fetch : String → FcResponse) (o : CompletionOracle)
    (url style : String) (sc a f s : String) (t1 : List StageCall)
    (hsc : scrape_website (fetch url) = some sc) (hne : sc ≠ "")
    (hsub : subChain o sc = (some (a, f, s), t1)) :
    run_agents fetch o url style none = finishRun o a f s style t1 := by
  have h1 : falsy (some sc) = false := falsy_some_of_ne hne
  simp [run_agents, hsc, h1, hsub]

lemma run_double_fetch2Fail (fetch : String → FcResponse) (o : CompletionOracle)
    (url style u2 : String) (sc a f s : String) (t1 : List StageCall)
    (hsc : scrape_website (fetch url) = some sc) (hne : sc ≠ "")
    (hsub : subChain o sc = (some (a, f, s), t1))
    (h2 : falsy (scrape_website (fetch u2)) = true) :
    run_agents fetch o url style (some u2) = (none, t1) := by
  have h1 : falsy (some sc) = false := falsy_some_of_ne hne
  simp [run_agents, hsc, h1, hsub, h2]

lemma run_double_sub2Fail (fetch : String → FcResponse) (o : CompletionOracle)
    (url style u2 : String) (sc a f s sc2 : String) (t1 t2 : List StageCall)
    (hsc : scrape_website (fetch url) = some sc) (hne : sc ≠ "")
    (hsub : subChain o sc = (some (a, f, s), t1))
    (hsc2 : scrape_website (fetch u2) = some sc2) (hne2 : sc2 ≠ "")
    (hsub2 : subChain o sc2 = (none, t2)) :
    run_agents fetch o url style (some u2) = (none, t1 ++ t2) := by
  have h1 : falsy (some sc) = false := falsy_some_of_ne hne
  have h2 : falsy (some sc2) = false := falsy_some_of_ne hne2
  simp [run_agents, hsc, h1, hsub, hsc2, h2, hsub2]

lemma run_double_sub2Ok (fetch : String → FcResponse) (o : CompletionOracle)
    (url style u2 : String) (sc a f s sc2 a2 f2 s2 : String) (t1 t2 : List StageCall)
    (hsc : scrape_website (fetch url) = some sc) (hne : sc ≠ "")
    (hsub : subChain o sc = (some (a, f, s), t1))
    (hsc2 : scrape_website (fetch u2) = some sc2) (hne2 : sc2 ≠ "")
    (hsub2 : subChain o sc2 = (some (a2, f2, s2), t2)) :
    run_agents fetch o url style (some u2) =
      finishRun o (a ++ secondAnalysisLabel ++ a2) (f ++ secondFactLabel ++ f2)
        (s ++ secondSummaryLabel ++ s2) style (t1 ++ t2) := by
  have h1 : falsy (some sc) = false := falsy_some_of_ne hne
  have h2 : falsy (some sc2) = false := falsy_some_of_ne hne2
  simp [run_agents, hsc, h1, hsub, hsc2, h2, hsub2]

/-- Full case analysis of a single-source run whose fetch produced usable
text. -/
lemma run_char_single (fetch : String → FcResponse) (o : CompletionOracle)
    (url style : String) (sc : String)
    (hsc : scrape_website (fetch url) = some sc) (hne : sc ≠ "") :
    subFailCases o sc [] (run_agents fetch o url style none) ∨
    (subOk o sc ∧
      finishCases o style (aOut o sc) (fOut o sc) (sOut o sc)
        [aCall sc, fCall sc, sCall sc] (run_agents fetch o url style none)) := by
  rcases subChain_char o sc with ⟨hA, hsub⟩ | ⟨hA, hF, hsub⟩ | ⟨hA, hF, hS, hsub⟩ |
    ⟨hA, hF, hS, hsub⟩
  · left; left
    exact ⟨hA, by simpa using run_subFail fetch o url style none sc _ hsc hne hsub⟩
  · left; right; left
    exact ⟨hA, hF, by simpa using run_subFail fetch o url style none sc _ hsc hne hsub⟩
  · left; right; right
    exact ⟨hA, hF, hS, by simpa using run_subFail fetch o url style none sc _ hsc hne hsub⟩
  · right
    refine ⟨⟨hA, hF, hS⟩, ?_⟩
    have ha := falsy_eq_false hA
    have hf := falsy_eq_false hF
    have hs := falsy_eq_false hS
    rw [run_single_subOk fetch o url style sc _ _ _ _ hsc hne hsub]
    exact finishRun_char o _ _ _ style _ ha.2 hf.2 hs.2

/-- Full case analysis of a two-source run whose first fetch produced
usable text. -/
lemma run_char_double (fetch : String → FcResponse) (o : CompletionOracle)
    (url style u2 : String) (sc : String)
    (hsc : scrape_website (fetch url) = some sc) (hne : sc ≠ "") :
    subFailCases o sc [] (run_agents fetch o url style (some u2)) ∨
    (subOk o sc ∧
      ((falsy (scrape_website (fetch u2)) = true ∧
         run_agents fetch o url style (some u2) = (none, [aCall sc, fCall sc, sCall sc])) ∨
       ∃ sc2, scrape_website (fetch u2) = some sc2 ∧ sc2 ≠ "" ∧
         (subFailCases o sc2 [aCall sc, fCall sc, sCall sc]
            (run_agents fetch o url style (some u2)) ∨
          (subOk o sc2 ∧
            finishCases o style
              (aOut o sc ++ secondAnalysisLabel ++ aOut o sc2)
              (fOut o sc ++ secondFactLabel ++ fOut o sc2)
              (sOut o sc ++ secondSummaryLabel ++ sOut o sc2)
              [aCall sc, fCall sc, sCall sc, aCall sc2, fCall sc2, sCall sc2]
              (run_agents fetch o url style (some u2)))))) := by
  rcases subChain_char o sc with ⟨hA, hsub⟩ | ⟨hA, hF, hsub⟩ | ⟨hA, hF, hS, hsub⟩ |
    ⟨hA, hF, hS, hsub⟩
  · left; left
    exact ⟨hA, by simpa using run_subFail fetch o url style (some u2) sc _ hsc hne hsub⟩
  · left; right; left
    exact ⟨hA, hF, by simpa using run_subFail fetch o url style (some u2) sc _ hsc hne hsub⟩
  · left; right; right
    exact ⟨hA, hF, hS, by simpa using run_subFail fetch o url style (some u2) sc _ hsc hne hsub⟩
  · right
    refine ⟨⟨hA, hF, hS⟩, ?_⟩
    by_cases h2 : falsy (scrape_website (fetch u2)) = true
    · left
      exact ⟨h2, run_double_fetch2Fail fetch o url style u2 sc _ _ _ _ hsc hne hsub h2⟩
    · have h2' : falsy (scrape_website (fetch u2)) = false := by simpa using h2
      obtain ⟨hsc2, hne2⟩ := falsy_eq_false h2'
      right
      refine ⟨(scrape_website (fetch u2)).getD "", hsc2, hne2, ?_⟩
      set sc2 := (scrape_website (fetch u2)).getD "" with hsc2def
      rcases subChain_char o sc2 with ⟨hA2, hsub2⟩ | ⟨hA2, hF2, hsub2⟩ |
        ⟨hA2, hF2, hS2, hsub2⟩ | ⟨hA2, hF2, hS2, hsub2⟩
      · left; left
        exact ⟨hA2, by
          simpa using (run_double_sub2Fail fetch o url style u2 sc _ _ _ sc2 _ _
            hsc hne hsub hsc2 hne2 hsub2)⟩
      · left; right; left
        exact ⟨hA2, hF2, by
          simpa using (run_double_sub2Fail fetch o url style u2 sc _ _ _ sc2 _ _
            hsc hne hsub hsc2 hne2 hsub2)⟩
      · left; right; right
        exact ⟨hA2, hF2, hS2, by
          simpa using (run_double_sub2Fail fetch o url style u2 sc _ _ _ sc2 _ _
            hsc hne hsub hsc2 hne2 hsub2)⟩
      · right
        refine ⟨⟨hA2, hF2, hS2⟩, ?_⟩
        have heq := run_double_sub2Ok fetch o url style u2 sc _ _ _ sc2 _ _ _ _ _
          hsc hne hsub hsc2 hne2 hsub2
        rw [show ([aCall sc, fCall sc, sCall sc] ++ [aCall sc2, fCall sc2, sCall sc2] :
              List StageCall)
            = [aCall sc, fCall sc, sCall sc, aCall sc2, fCall sc2, sCall sc2] from by simp]
          at heq
        rw [heq]
        exact finishRun_char o _ _ _ style _
          (append3_ne_empty _ _ _ (by decide))
          (append3_ne_empty _ _ _ (by decide))
          (append3_ne_empty _ _ _ (by decide))

lemma respFalsy_aCall (o : CompletionOracle) (sc : String) :
    respFalsy o (aCall sc) = falsy (analyze_website_content o sc) := rfl

lemma respFalsy_fCall (o : CompletionOracle) (sc : String) :
    respFalsy o (fCall sc) = falsy (fact_check_content o sc) := rfl

lemma respFalsy_sCall (o : CompletionOracle) (sc : String) :
    respFalsy o (sCall sc) = falsy (generate_completion o summaryRole summaryTask sc) := rfl

lemma respFalsy_sCall' (o : CompletionOracle) (sc : String) :
    respFalsy o (sCall sc) = falsy (summarize_content o sc) := rfl

lemma respFalsy_eCall (o : CompletionOracle) (ct : String) :
    respFalsy o (eCall ct) = falsy (generate_completion o editorRole editorTask ct) := rfl

lemma string_data_ext {s t : String} (h : s.data = t.data) : s = t := by
  cases s with
  | mk d1 =>
    cases t with
    | mk d2 =>
      have hd : d1 = d2 := h
      rw [hd]

lemma strContains_of_eq (n pre post hay : String) (h : hay = pre ++ n ++ post) :
    strContains n hay := by
  refine ⟨pre.data, post.data, ?_⟩
  rw [h]
  simp [String.data_append]

/-- If any completion invocation of a run got a falsy response, the run's
returned value is None. -/
lemma run_none_of_falsy (fetch : String → FcResponse) (o : CompletionOracle)
    (url style : String) (su : Option String)
    (h : ∃ c ∈ (run_agents fetch o url style su).2, respFalsy o c = true) :
    (run_agents fetch o url style su).1 = none := by
  by_cases h0 : falsy (scrape_website (fetch url)) = true
  · rw [run_agents_fetchFail fetch o url style su h0]
  · have h0' : falsy (scrape_website (fetch url)) = false := by simpa using h0
    obtain ⟨hsc, hne⟩ := falsy_eq_false h0'
    set sc := (scrape_website (fetch url)).getD "" with hscdef
    cases su with
    | none =>
      rcases run_char_single fetch o url style sc hsc hne with
        (⟨_, hEq⟩ | ⟨_, _, hEq⟩ | ⟨_, _, _, hEq⟩) |
        ⟨⟨hA, hF, hS⟩, (⟨_, hEq⟩ | ⟨_, _, hEq⟩ | ⟨_, hre, hEq⟩)⟩
      · rw [hEq]
      · rw [hEq]
      · rw [hEq]
      · rw [hEq]
      · rw [hEq]
      · exfalso
        rw [hEq] at h
        obtain ⟨c, hc, hcf⟩ := h
        simp only [List.mem_append, List.mem_cons, List.mem_singleton,
          List.not_mem_nil, or_false] at hc
        rcases hc with ((rfl | rfl | rfl) | rfl)
        · rw [respFalsy_aCall, hA] at hcf
          exact Bool.false_ne_true hcf
        · rw [respFalsy_fCall, hF] at hcf
          exact Bool.false_ne_true hcf
        · rw [respFalsy_sCall', hS] at hcf
          exact Bool.false_ne_true hcf
        · rw [respFalsy_eCall, hre] at hcf
          exact Bool.false_ne_true hcf
    | some u2 =>
      rcases run_char_double fetch o url style u2 sc hsc hne with
        (⟨_, hEq⟩ | ⟨_, _, hEq⟩ | ⟨_, _, _, hEq⟩) |
        ⟨⟨hA, hF, hS⟩, (⟨_, hEq⟩ |
          ⟨sc2, hsc2, hne2,
            ((⟨_, hEq⟩ | ⟨_, _, hEq⟩ | ⟨_, _, _, hEq⟩) |
             ⟨⟨hA2, hF2, hS2⟩, (⟨_, hEq⟩ | ⟨_, _, hEq⟩ | ⟨_, hre, hEq⟩)⟩)⟩)⟩
      · rw [hEq]
      · rw [hEq]
      · rw [hEq]
      · rw [hEq]
      · rw [hEq]
      · rw [hEq]
      · rw [hEq]
      · rw [hEq]
      · rw [hEq]
      · exfalso
        rw [hEq] at h
        obtain ⟨c, hc, hcf⟩ := h
        simp only [List.mem_append, List.mem_cons, List.mem_singleton,
          List.not_mem_nil, or_false] at hc
        rcases hc with ((rfl | rfl | rfl | rfl | rfl | rfl) | rfl)
        · rw [respFalsy_aCall, hA] at hcf
          exact Bool.false_ne_true hcf
        · rw [respFalsy_fCall, hF] at hcf
          exact Bool.false_ne_true hcf
        · rw [respFalsy_sCall', hS] at hcf
          exact Bool.false_ne_true hcf
        · rw [respFalsy_aCall, hA2] at hcf
          exact Bool.false_ne_true hcf
        · rw [respFalsy_fCall, hF2] at hcf
          exact Bool.false_ne_true hcf
        · rw [respFalsy_sCall', hS2] at hcf
          exact Bool.false_ne_true hcf
        · rw [respFalsy_eCall, hre] at hcf
          exact Bool.false_ne_true hcf

/-- In every run, every completion invocation except possibly the final
one got a truthy response: a stage whose response was falsy (an exception,
or text that is empty after stripping) is never followed by a further
invocation. -/
lemma run_dropLast_truthy (fetch : String → FcResponse) (o : CompletionOracle)
    (url style : String) (su : Option String) :
    ∀ c ∈ (run_agents fetch o url style su).2.dropLast, respFalsy o c = false := by
  by_cases h0 : falsy (scrape_website (fetch url)) = true
  · rw [run_agents_fetchFail fetch o url style su h0]
    intro c hc
    simp at hc
  · have h0' : falsy (scrape_website (fetch url)) = false := by simpa using h0
    obtain ⟨hsc, hne⟩ := falsy_eq_false h0'
    set sc := (scrape_website (fetch url)).getD "" with hscdef
    cases su with
    | none =>
      rcases run_char_single fetch o url style sc hsc hne with
        (⟨hA, hEq⟩ | ⟨hA, hF, hEq⟩ | ⟨hA, hF, hS, hEq⟩) |
        ⟨⟨hA, hF, hS⟩, (⟨_, hEq⟩ | ⟨_, _, hEq⟩ | ⟨_, _, hEq⟩)⟩ <;> rw [hEq] <;>
        intro c hc <;> simp at hc
      · subst hc
        rw [respFalsy_aCall]
        exact hA
      · rcases hc with rfl | rfl
        · rw [respFalsy_aCall]
          exact hA
        · rw [respFalsy_fCall]
          exact hF
      · rcases hc with rfl | rfl
        · rw [respFalsy_aCall]
          exact hA
        · rw [respFalsy_fCall]
          exact hF
      · rcases hc with rfl | rfl | rfl
        · rw [respFalsy_aCall]
          exact hA
        · rw [respFalsy_fCall]
          exact hF
        · rw [respFalsy_sCall']
          exact hS
      · rcases hc with rfl | rfl | rfl
        · rw [respFalsy_aCall]
          exact hA
        · rw [respFalsy_fCall]
          exact hF
        · rw [respFalsy_sCall']
          exact hS
    | some u2 =>
      rcases run_char_double fetch o url style u2 sc hsc hne with
        (⟨hA, hEq⟩ | ⟨hA, hF, hEq⟩ | ⟨hA, hF, hS, hEq⟩) |
        ⟨⟨hA, hF, hS⟩, (⟨_, hEq⟩ |
          ⟨sc2, hsc2, hne2,
            ((⟨hA2, hEq⟩ | ⟨hA2, hF2, hEq⟩ | ⟨hA2, hF2, hS2, hEq⟩) |
             ⟨⟨hA2, hF2, hS2⟩, (⟨_, hEq⟩ | ⟨_, _, hEq⟩ | ⟨_, _, hEq⟩)⟩)⟩)⟩ <;> rw [hEq] <;>
        intro c hc <;> simp at hc
      · subst hc
        rw [respFalsy_aCall]
        exact hA
      · rcases hc with rfl | rfl
        · rw [respFalsy_aCall]
          exact hA
        · rw [respFalsy_fCall]
          exact hF
      · rcases hc with rfl | rfl
        · rw [respFalsy_aCall]
          exact hA
        · rw [respFalsy_fCall]
          exact hF
      · rcases hc with rfl | rfl | rfl
        · rw [respFalsy_aCall]
          exact hA
        · rw [respFalsy_fCall]
          exact hF
        · rw [respFalsy_sCall']
          exact hS
      · rcases hc with rfl | rfl | rfl | rfl
        · rw [respFalsy_aCall]
          exact hA
        · rw [respFalsy_fCall]
          exact hF
        · rw [respFalsy_sCall']
          exact hS
        · rw [respFalsy_aCall]
          exact hA2
      · rcases hc with rfl | rfl | rfl | rfl | rfl
        · rw [respFalsy_aCall]
          exact hA
        · rw [respFalsy_fCall]
          exact hF
        · rw [respFalsy_sCall']
          exact hS
        · rw [respFalsy_aCall]
          exact hA2
        · rw [respFalsy_fCall]
          exact hF2
      · rcases hc with rfl | rfl | rfl | rfl | rfl
        · rw [respFalsy_aCall]
          exact hA
        · rw [respFalsy_fCall]
          exact hF
        · rw [respFalsy_sCall']
          exact hS
        · rw [respFalsy_aCall]
          exact hA2
        · rw [respFalsy_fCall]
          exact hF2
      · rcases hc with rfl | rfl | rfl | rfl | rfl | rfl
        · rw [respFalsy_aCall]
          exact hA
        · rw [respFalsy_fCall]
          exact hF
        · rw [respFalsy_sCall']
          exact hS
        · rw [respFalsy_aCall]
          exact hA2
        · rw [respFalsy_fCall]
          exact hF2
        · rw [respFalsy_sCall']
          exact hS2
      · rcases hc with rfl | rfl | rfl | rfl | rfl | rfl
        · rw [respFalsy_aCall]
          exact hA
        · rw [respFalsy_fCall]
          exact hF
        · rw [respFalsy_sCall']
          exact hS
        · rw [respFalsy_aCall]
          exact hA2
        · rw [respFalsy_fCall]
          exact hF2
        · rw [respFalsy_sCall']
          exact hS2

/-- C8: if fetching the only supplied URL fails (the fetcher raises, or
its response has no markdown field, or the markdown is empty), run_agents
halts at once: no completion stage is ever invoked (the invocation record
is empty) and the returned artifact is None. -/
theorem claim_C8 (e : String) :
    falsy (scrape_website (FcResponse.exn e)) = true ∧
    falsy (scrape_website (FcResponse.dict none)) = true ∧
    falsy (scrape_website (FcResponse.dict (some ""))) = true ∧
    ∀ (fetch : String → FcResponse) (o : CompletionOracle) (url style : String)
      (su : Option String),
      falsy (scrape_website (fetch url)) = true →
      run_agents fetch o url style su = (none, []) := by
  refine ⟨rfl, rfl, by decide, ?_⟩
  intro fetch o url style su h
  exact run_agents_fetchFail fetch o url style su h

/-- C8 witness: a fetcher raising on the only URL yields an empty
invocation record and a None artifact. -/
theorem claim_C8_witness :
    run_agents (fun _ => FcResponse.exn "network timeout") (fun _ _ _ => Except.ok "out")
      "u" "st" none = (none, []) :=
  (claim_C8 "network timeout").2.2.2 (fun _ => FcResponse.exn "network timeout")
    (fun _ _ _ => Except.ok "out") "u" "st" none rfl

/-- C1: in every run whose fetch of the first URL produced usable text and
whose style instructions are non-empty, the recorded completion
invocations form a prefix of the declared stage sequence (no gaps, no
reordering); every invocation except possibly the last one received a
truthy response, so a failed stage is never followed by a further stage
invocation; and the run produces a final artifact exactly when the whole
declared sequence ran with no falsy response — in particular a failure at
stage k leaves exactly the stages up to k recorded, the first k-1 of them
successful, and no final editorial artifact. -/
theorem claim_C1 (fetch : String → FcResponse) (o : CompletionOracle)
    (url style : String) (su : Option String) (sc : String)
    (hsc : scrape_website (fetch url) = some sc) (hne : sc ≠ "") (hst : style ≠ "") :
    (((run_agents fetch o url style su).2.map StageCall.role) <+: declaredRoles su) ∧
    (∀ c ∈ (run_agents fetch o url style su).2.dropLast, respFalsy o c = false) ∧
    ((run_agents fetch o url style su).1 = none ↔
      ((run_agents fetch o url style su).2.map StageCall.role ≠ declaredRoles su ∨
       ∃ c ∈ (run_agents fetch o url style su).2, respFalsy o c = true)) := by
  cases su with
  | none =>
    rcases run_char_single fetch o url style sc hsc hne with
      (⟨hA, hEq⟩ | ⟨hA, hF, hEq⟩ | ⟨hA, hF, hS, hEq⟩) |
      ⟨⟨hA, hF, hS⟩, (⟨hstEq, hEq⟩ | ⟨_, hre, hEq⟩ | ⟨_, hre, hEq⟩)⟩
    · rw [hEq]
      refine ⟨⟨[factRole, summaryRole, editorRole], by simp [aCall, declaredRoles]⟩, ?_, ?_⟩
      · intro c hc
        simp at hc
      · constructor
        · intro _
          exact Or.inr ⟨aCall sc, by simp, by rw [respFalsy_aCall]; exact hA⟩
        · intro _
          rfl
    · rw [hEq]
      refine ⟨⟨[summaryRole, editorRole], by simp [aCall, fCall, declaredRoles]⟩, ?_, ?_⟩
      · intro c hc
        simp at hc
        subst hc
        rw [respFalsy_aCall]
        exact hA
      · constructor
        · intro _
          exact Or.inr ⟨fCall sc, by simp, by rw [respFalsy_fCall]; exact hF⟩
        · intro _
          rfl
    · rw [hEq]
      refine ⟨⟨[editorRole], by simp [aCall, fCall, sCall, declaredRoles]⟩, ?_, ?_⟩
      · intro c hc
        simp at hc
        rcases hc with rfl | rfl
        · rw [respFalsy_aCall]
          exact hA
        · rw [respFalsy_fCall]
          exact hF
      · constructor
        · intro _
          exact Or.inr ⟨sCall sc, by simp, by rw [respFalsy_sCall']; exact hS⟩
        · intro _
          rfl
    · exact absurd hstEq hst
    · rw [hEq]
      refine ⟨⟨[], by simp [aCall, fCall, sCall, eCall, declaredRoles]⟩, ?_, ?_⟩
      · intro c hc
        simp at hc
        rcases hc with rfl | rfl | rfl
        · rw [respFalsy_aCall]
          exact hA
        · rw [respFalsy_fCall]
          exact hF
        · rw [respFalsy_sCall']
          exact hS
      · constructor
        · intro _
          refine Or.inr ⟨eCall (editorialContent (aOut o sc) (fOut o sc) (sOut o sc) style),
            by simp, ?_⟩
          rw [respFalsy_eCall]
          exact hre
        · intro _
          rfl
    · rw [hEq]
      refine ⟨⟨[], by simp [aCall, fCall, sCall, eCall, declaredRoles]⟩, ?_, ?_⟩
      · intro c hc
        simp at hc
        rcases hc with rfl | rfl | rfl
        · rw [respFalsy_aCall]
          exact hA
        · rw [respFalsy_fCall]
          exact hF
        · rw [respFalsy_sCall']
          exact hS
      · constructor
        · intro h
          simp at h
        · rintro (hmap | ⟨c, hc, hcf⟩)
          · exact absurd (by simp [aCall, fCall, sCall, eCall, declaredRoles]) hmap
          · exfalso
            simp only [List.mem_append, List.mem_cons, List.mem_singleton,
              List.not_mem_nil, or_false] at hc
            rcases hc with ((rfl | rfl | rfl) | rfl)
            · rw [respFalsy_aCall, hA] at hcf
              exact Bool.false_ne_true hcf
            · rw [respFalsy_fCall, hF] at hcf
              exact Bool.false_ne_true hcf
            · rw [respFalsy_sCall', hS] at hcf
              exact Bool.false_ne_true hcf
            · rw [respFalsy_eCall, hre] at hcf
              exact Bool.false_ne_true hcf
  | some u2 =>
    rcases run_char_double fetch o url style u2 sc hsc hne with
      (⟨hA, hEq⟩ | ⟨hA, hF, hEq⟩ | ⟨hA, hF, hS, hEq⟩) |
      ⟨⟨hA, hF, hS⟩, (⟨_, hEq⟩ |
        ⟨sc2, hsc2, hne2,
          ((⟨hA2, hEq⟩ | ⟨hA2, hF2, hEq⟩ | ⟨hA2, hF2, hS2, hEq⟩) |
           ⟨⟨hA2, hF2, hS2⟩, (⟨hstEq, hEq⟩ | ⟨_, hre, hEq⟩ | ⟨_, hre, hEq⟩)⟩)⟩)⟩
    · rw [hEq]
      refine ⟨⟨[factRole, summaryRole, analysisRole, factRole, summaryRole, editorRole],
        by simp [aCall, declaredRoles]⟩, ?_, ?_⟩
      · intro c hc
        simp at hc
      · constructor
        · intro _
          exact Or.inr ⟨aCall sc, by simp, by rw [respFalsy_aCall]; exact hA⟩
        · intro _
          rfl
    · rw [hEq]
      refine ⟨⟨[summaryRole, analysisRole, factRole, summaryRole, editorRole],
        by simp [aCall, fCall, declaredRoles]⟩, ?_, ?_⟩
      · intro c hc
        simp at hc
        subst hc
        rw [respFalsy_aCall]
        exact hA
      · constructor
        · intro _
          exact Or.inr ⟨fCall sc, by simp, by rw [respFalsy_fCall]; exact hF⟩
        · intro _
          rfl
    · rw [hEq]
      refine ⟨⟨[analysisRole, factRole, summaryRole, editorRole],
        by simp [aCall, fCall, sCall, declaredRoles]⟩, ?_, ?_⟩
      · intro c hc
        simp at hc
        rcases hc with rfl | rfl
        · rw [respFalsy_aCall]
          exact hA
        · rw [respFalsy_fCall]
          exact hF
      · constructor
        · intro _
          exact Or.inr ⟨sCall sc, by simp, by rw [respFalsy_sCall']; exact hS⟩
        · intro _
          rfl
    · rw [hEq]
      refine ⟨⟨[analysisRole, factRole, summaryRole, editorRole],
        by simp [aCall, fCall, sCall, declaredRoles]⟩, ?_, ?_⟩
      · intro c hc
        simp at hc
        rcases hc with rfl | rfl
        · rw [respFalsy_aCall]
          exact hA
        · rw [respFalsy_fCall]
          exact hF
      · constructor
        · intro _
          left
          simp [aCall, fCall, sCall, declaredRoles]
        · intro _
          rfl
    · rw [hEq]
      refine ⟨⟨[factRole, summaryRole, editorRole],
        by simp [aCall, fCall, sCall, declaredRoles]⟩, ?_, ?_⟩
      · intro c hc
        simp at hc
        rcases hc with rfl | rfl | rfl
        · rw [respFalsy_aCall]
          exact hA
        · rw [respFalsy_fCall]
          exact hF
        · rw [respFalsy_sCall']
          exact hS
      · constructor
        · intro _
          exact Or.inr ⟨aCall sc2, by simp, by rw [respFalsy_aCall]; exact hA2⟩
        · intro _
          rfl
    · rw [hEq]
      refine ⟨⟨[summaryRole, editorRole],
        by simp [aCall, fCall, sCall, declaredRoles]⟩, ?_, ?_⟩
      · intro c hc
        simp at hc
        rcases hc with rfl | rfl | rfl | rfl
        · rw [respFalsy_aCall]
          exact hA
        · rw [respFalsy_fCall]
          exact hF
        · rw [respFalsy_sCall']
          exact hS
        · rw [respFalsy_aCall]
          exact hA2
      · constructor
        · intro _
          exact Or.inr ⟨fCall sc2, by simp, by rw [respFalsy_fCall]; exact hF2⟩
        · intro _
          rfl
    · rw [hEq]
      refine ⟨⟨[editorRole],
        by simp [aCall, fCall, sCall, declaredRoles]⟩, ?_, ?_⟩
      · intro c hc
        simp at hc
        rcases hc with rfl | rfl | rfl | rfl | rfl
        · rw [respFalsy_aCall]
          exact hA
        · rw [respFalsy_fCall]
          exact hF
        · rw [respFalsy_sCall']
          exact hS
        · rw [respFalsy_aCall]
          exact hA2
        · rw [respFalsy_fCall]
          exact hF2
      · constructor
        · intro _
          exact Or.inr ⟨sCall sc2, by simp, by rw [respFalsy_sCall']; exact hS2⟩
        · intro _
          rfl
    · exact absurd hstEq hst
    · rw [hEq]
      refine ⟨⟨[], by simp [aCall, fCall, sCall, eCall, declaredRoles]⟩, ?_, ?_⟩
      · intro c hc
        simp at hc
        rcases hc with rfl | rfl | rfl | rfl | rfl | rfl
        · rw [respFalsy_aCall]
          exact hA
        · rw [respFalsy_fCall]
          exact hF
        · rw [respFalsy_sCall']
          exact hS
        · rw [respFalsy_aCall]
          exact hA2
        · rw [respFalsy_fCall]
          exact hF2
        · rw [respFalsy_sCall']
          exact hS2
      · constructor
        · intro _
          refine Or.inr ⟨eCall (editorialContent
            (aOut o sc ++ secondAnalysisLabel ++ aOut o sc2)
            (fOut o sc ++ secondFactLabel ++ fOut o sc2)
            (sOut o sc ++ secondSummaryLabel ++ sOut o sc2) style), by simp, ?_⟩
          rw [respFalsy_eCall]
          exact hre
        · intro _
          rfl
    · rw [hEq]
      refine ⟨⟨[], by simp [aCall, fCall, sCall, eCall, declaredRoles]⟩, ?_, ?_⟩
      · intro c hc
        simp at hc
        rcases hc with rfl | rfl | rfl | rfl | rfl | rfl
        · rw [respFalsy_aCall]
          exact hA
        · rw [respFalsy_fCall]
          exact hF
        · rw [respFalsy_sCall']
          exact hS
        · rw [respFalsy_aCall]
          exact hA2
        · rw [respFalsy_fCall]
          exact hF2
        · rw [respFalsy_sCall']
          exact hS2
      · constructor
        · intro h
          simp at h
        · rintro (hmap | ⟨c, hc, hcf⟩)
          · exact absurd (by simp [aCall, fCall, sCall, eCall, declaredRoles]) hmap
          · exfalso
            simp only [List.mem_append, List.mem_cons, List.mem_singleton,
              List.not_mem_nil, or_false] at hc
            rcases hc with ((rfl | rfl | rfl | rfl | rfl | rfl) | rfl)
            · rw [respFalsy_aCall, hA] at hcf
              exact Bool.false_ne_true hcf
            · rw [respFalsy_fCall, hF] at hcf
              exact Bool.false_ne_true hcf
            · rw [respFalsy_sCall', hS] at hcf
              exact Bool.false_ne_true hcf
            · rw [respFalsy_aCall, hA2] at hcf
              exact Bool.false_ne_true hcf
            · rw [respFalsy_fCall, hF2] at hcf
              exact Bool.false_ne_true hcf
            · rw [respFalsy_sCall', hS2] at hcf
              exact Bool.false_ne_true hcf
            · rw [respFalsy_eCall, hre] at hcf
              exact Bool.false_ne_true hcf

/-- C1 witness: with a completion service that fails exactly on the
fact-check role, the single-source run records analysis then fact-check
and nothing after, and produces no artifact. -/
theorem claim_C1_witness :
    ((((run_agents (fun _ => FcResponse.dict (some "X"))
        (fun r _ _ => if r = factRole then Except.error "boom" else Except.ok "out")
        "u" "st" none).2.map StageCall.role) <+: declaredRoles none) ∧
    (∀ c ∈ (run_agents (fun _ => FcResponse.dict (some "X"))
        (fun r _ _ => if r = factRole then Except.error "boom" else Except.ok "out")
        "u" "st" none).2.dropLast,
      respFalsy (fun r _ _ => if r = factRole then Except.error "boom" else Except.ok "out")
        c = false) ∧
    ((run_agents (fun _ => FcResponse.dict (some "X"))
        (fun r _ _ => if r = factRole then Except.error "boom" else Except.ok "out")
        "u" "st" none).1 = none ↔
      ((run_agents (fun _ => FcResponse.dict (some "X"))
        (fun r _ _ => if r = factRole then Except.error "boom" else Except.ok "out")
        "u" "st" none).2.map StageCall.role ≠ declaredRoles none ∨
       ∃ c ∈ (run_agents (fun _ => FcResponse.dict (some "X"))
        (fun r _ _ => if r = factRole then Except.error "boom" else Except.ok "out")
        "u" "st" none).2,
        respFalsy (fun r _ _ => if r = factRole then Except.error "boom" else Except.ok "out")
          c = true))) :=
  claim_C1 (fun _ => FcResponse.dict (some "X"))
    (fun r _ _ => if r = factRole then Except.error "boom" else Except.ok "out")
    "u" "st" none "X" rfl (by decide) (by decide)


lemma editorial_contains_parts (a f s st : String) :
    strContains ("Analyse: " ++ a) (editorialContent a f s st) ∧
    strContains ("\nFaktenprüfung: " ++ f) (editorialContent a f s st) ∧
    strContains ("\nZusammenfassung:\n" ++ s) (editorialContent a f s st) ∧
    strContains ("\nStil-Anweisungen: " ++ st) (editorialContent a f s st) := by
  refine ⟨?_, ?_, ?_, ?_⟩
  · exact strContains_of_eq _ ""
      ("\nFaktenprüfung: " ++ f ++ "\nZusammenfassung:\n" ++ s ++ "\nStil-Anweisungen: " ++ st)
      _ (by simp [editorialContent, String.append_assoc])
  · exact strContains_of_eq _ ("Analyse: " ++ a)
      ("\nZusammenfassung:\n" ++ s ++ "\nStil-Anweisungen: " ++ st)
      _ (by simp [editorialContent, String.append_assoc])
  · exact strContains_of_eq _ ("Analyse: " ++ a ++ "\nFaktenprüfung: " ++ f)
      ("\nStil-Anweisungen: " ++ st)
      _ (by simp [editorialContent, String.append_assoc])
  · exact strContains_of_eq _
      ("Analyse: " ++ a ++ "\nFaktenprüfung: " ++ f ++ "\nZusammenfassung:\n" ++ s) ""
      _ (by simp [editorialContent, String.append_assoc])

lemma editorial_contains_raw (a f s st : String) :
    strContains a (editorialContent a f s st) ∧
    strContains f (editorialContent a f s st) ∧
    strContains s (editorialContent a f s st) ∧
    strContains st (editorialContent a f s st) := by
  refine ⟨?_, ?_, ?_, ?_⟩
  · exact strContains_of_eq _ "Analyse: "
      ("\nFaktenprüfung: " ++ f ++ "\nZusammenfassung:\n" ++ s ++ "\nStil-Anweisungen: " ++ st)
      _ (by simp [editorialContent, String.append_assoc])
  · exact strContains_of_eq _ ("Analyse: " ++ a ++ "\nFaktenprüfung: ")
      ("\nZusammenfassung:\n" ++ s ++ "\nStil-Anweisungen: " ++ st)
      _ (by simp [editorialContent, String.append_assoc])
  · exact strContains_of_eq _
      ("Analyse: " ++ a ++ "\nFaktenprüfung: " ++ f ++ "\nZusammenfassung:\n")
      ("\nStil-Anweisungen: " ++ st)
      _ (by simp [editorialContent, String.append_assoc])
  · exact strContains_of_eq _
      ("Analyse: " ++ a ++ "\nFaktenprüfung: " ++ f ++ "\nZusammenfassung:\n" ++ s ++
        "\nStil-Anweisungen: ") ""
      _ (by simp [editorialContent, String.append_assoc])

/-- C4: the editorial stage is attempted exactly when analysis, fact
check, summary and style instructions are all non-empty; its delivered
input text is the labelled concatenation, which contains the literal
output of each prior stage byte-for-byte, each preceded by its label, and
the style instructions. -/
theorem claim_C4 (o : CompletionOracle) (a f s st : String) :
    ((a = "" ∨ f = "" ∨ s = "" ∨ st = "") → generate_editorial o a f s st = (none, [])) ∧
    (a ≠ "" → f ≠ "" → s ≠ "" → st ≠ "" →
      (generate_editorial o a f s st =
        (generate_completion o editorRole editorTask (editorialContent a f s st),
         [eCall (editorialContent a f s st)]) ∧
       strContains ("Analyse: " ++ a) (editorialContent a f s st) ∧
       strContains ("\nFaktenprüfung: " ++ f) (editorialContent a f s st) ∧
       strContains ("\nZusammenfassung:\n" ++ s) (editorialContent a f s st) ∧
       strContains ("\nStil-Anweisungen: " ++ st) (editorialContent a f s st))) := by
  constructor
  · intro h
    simp [generate_editorial, h]
  · intro h1 h2 h3 h4
    refine ⟨by simp [generate_editorial, h1, h2, h3, h4], ?_, ?_, ?_, ?_⟩
    · exact (editorial_contains_parts a f s st).1
    · exact (editorial_contains_parts a f s st).2.1
    · exact (editorial_contains_parts a f s st).2.2.1
    · exact (editorial_contains_parts a f s st).2.2.2

/-- C4 witness: with one empty component the editorial stage is skipped;
with all components non-empty the invocation is made on the labelled
concatenation containing each component. -/
theorem claim_C4_witness :
    generate_editorial (fun _ _ _ => Except.ok "E") "" "F" "S" "T" = (none, []) ∧
    (generate_editorial (fun _ _ _ => Except.ok "E") "A" "F" "S" "T" =
      (generate_completion (fun _ _ _ => Except.ok "E") editorRole editorTask
         (editorialContent "A" "F" "S" "T"),
       [eCall (editorialContent "A" "F" "S" "T")]) ∧
     strContains ("Analyse: " ++ "A") (editorialContent "A" "F" "S" "T") ∧
     strContains ("\nFaktenprüfung: " ++ "F") (editorialContent "A" "F" "S" "T") ∧
     strContains ("\nZusammenfassung:\n" ++ "S") (editorialContent "A" "F" "S" "T") ∧
     strContains ("\nStil-Anweisungen: " ++ "T") (editorialContent "A" "F" "S" "T")) :=
  ⟨(claim_C4 (fun _ _ _ => Except.ok "E") "" "F" "S" "T").1 (Or.inl rfl),
   (claim_C4 (fun _ _ _ => Except.ok "E") "A" "F" "S" "T").2
     (by decide) (by decide) (by decide) (by decide)⟩

/-- C6: in a single-source run, every completion invocation other than the
editorial one (analysis, fact check and summary) receives exactly the
original scraped document text as its content — the same text, not the
output of any prior stage. -/
theorem claim_C6 (fetch : String → FcResponse) (o : CompletionOracle)
    (url style : String) (sc : String)
    (hsc : scrape_website (fetch url) = some sc) (hne : sc ≠ "") :
    ∀ c ∈ (run_agents fetch o url style none).2, c.role ≠ editorRole → c.content = sc := by
  rcases run_char_single fetch o url style sc hsc hne with
    (⟨_, hEq⟩ | ⟨_, _, hEq⟩ | ⟨_, _, _, hEq⟩) |
    ⟨_, (⟨_, hEq⟩ | ⟨_, _, hEq⟩ | ⟨_, _, hEq⟩)⟩ <;>
    rw [hEq] <;> intro c hc hrole <;> simp at hc
  · subst hc
    rfl
  · rcases hc with rfl | rfl <;> rfl
  · rcases hc with rfl | rfl | rfl <;> rfl
  · rcases hc with rfl | rfl | rfl <;> rfl
  · rcases hc with rfl | rfl | rfl | rfl
    · rfl
    · rfl
    · rfl
    · exact absurd rfl hrole
  · rcases hc with rfl | rfl | rfl | rfl
    · rfl
    · rfl
    · rfl
    · exact absurd rfl hrole

/-- C6 witness: in a concrete single-source run, the fact-check and
summary invocations both carry the scraped text DOC. -/
theorem claim_C6_witness :
    (fCall "DOC").content = "DOC" ∧ (sCall "DOC").content = "DOC" :=
  ⟨claim_C6 (fun _ => FcResponse.dict (some "DOC")) (fun _ _ _ => Except.ok "out")
     "u" "st" "DOC" rfl (by decide) (fCall "DOC") (by decide) (by decide),
   claim_C6 (fun _ => FcResponse.dict (some "DOC")) (fun _ _ _ => Except.ok "out")
     "u" "st" "DOC" rfl (by decide) (sCall "DOC") (by decide) (by decide)⟩

/-- C2 counterexample: with a completion service answering ALPHA to the
analysis stage, the second invocation of the run (the fact-check stage)
receives the original text X as input, which does not contain the first
stage's output ALPHA — so stage n's input does not include stage n-1's
output, contradicting the claimed causal chaining. -/
theorem claim_C2_counterexample :
    generate_completion
      (fun r _ _ => if r = analysisRole then Except.ok "ALPHA" else Except.ok "ok")
      analysisRole analysisTask "X" = some "ALPHA" ∧
    ((run_agents (fun _ => FcResponse.dict (some "X"))
      (fun r _ _ => if r = analysisRole then Except.ok "ALPHA" else Except.ok "ok")
      "u" "st" none).2)[1]? = some (fCall "X") ∧
    ¬ strContains "ALPHA" (fCall "X").content :=
  ⟨by decide, by decide, by decide⟩

/-- C2 as amended: the stages run strictly in the declared order and no
stage runs before its predecessor completed successfully, but only the
editorial stage's input includes the prior stage outputs — the analysis,
fact-check and summary stages all receive the original scraped text, not
the preceding stage's output. -/
theorem claim_C2 (fetch : String → FcResponse) (o : CompletionOracle)
    (url style : String) (sc : String)
    (hsc : scrape_website (fetch url) = some sc) (hne : sc ≠ "") :
    (((run_agents fetch o url style none).2.map StageCall.role) <+: declaredRoles none) ∧
    (∀ c ∈ (run_agents fetch o url style none).2.dropLast, respFalsy o c = false) ∧
    (∀ c ∈ (run_agents fetch o url style none).2, c.role = editorRole →
      strContains (aOut o sc) c.content ∧ strContains (fOut o sc) c.content ∧
      strContains (sOut o sc) c.content) ∧
    (∀ c ∈ (run_agents fetch o url style none).2, c.role ≠ editorRole → c.content = sc) := by
  rcases run_char_single fetch o url style sc hsc hne with
    (⟨hA, hEq⟩ | ⟨hA, hF, hEq⟩ | ⟨hA, hF, hS, hEq⟩) |
    ⟨⟨hA, hF, hS⟩, (⟨_, hEq⟩ | ⟨_, _, hEq⟩ | ⟨_, _, hEq⟩)⟩ <;> rw [hEq]
  · refine ⟨⟨[factRole, summaryRole, editorRole], by simp [aCall, declaredRoles]⟩, ?_, ?_, ?_⟩
    · intro c hc
      simp at hc
    · intro c hc hrole
      simp at hc
      subst hc
      simp [aCall, analysisRole, editorRole] at hrole
    · intro c hc hrole
      simp at hc
      subst hc
      rfl
  · refine ⟨⟨[summaryRole, editorRole], by simp [aCall, fCall, declaredRoles]⟩, ?_, ?_, ?_⟩
    · intro c hc
      simp at hc
      subst hc
      rw [respFalsy_aCall]
      exact hA
    · intro c hc hrole
      simp at hc
      rcases hc with rfl | rfl <;>
        exact absurd hrole (by simp [aCall, fCall, analysisRole, factRole, editorRole])
    · intro c hc hrole
      simp at hc
      rcases hc with rfl | rfl <;> rfl
  · refine ⟨⟨[editorRole], by simp [aCall, fCall, sCall, declaredRoles]⟩, ?_, ?_, ?_⟩
    · intro c hc
      simp at hc
      rcases hc with rfl | rfl
      · rw [respFalsy_aCall]
        exact hA
      · rw [respFalsy_fCall]
        exact hF
    · intro c hc hrole
      simp at hc
      rcases hc with rfl | rfl | rfl <;>
        exact absurd hrole
          (by simp [aCall, fCall, sCall, analysisRole, factRole, summaryRole, editorRole])
    · intro c hc hrole
      simp at hc
      rcases hc with rfl | rfl | rfl <;> rfl
  · refine ⟨⟨[editorRole], by simp [aCall, fCall, sCall, declaredRoles]⟩, ?_, ?_, ?_⟩
    · intro c hc
      simp at hc
      rcases hc with rfl | rfl
      · rw [respFalsy_aCall]
        exact hA
      · rw [respFalsy_fCall]
        exact hF
    · intro c hc hrole
      simp at hc
      rcases hc with rfl | rfl | rfl <;>
        exact absurd hrole
          (by simp [aCall, fCall, sCall, analysisRole, factRole, summaryRole, editorRole])
    · intro c hc hrole
      simp at hc
      rcases hc with rfl | rfl | rfl <;> rfl
  · refine ⟨⟨[], by simp [aCall, fCall, sCall, eCall, declaredRoles]⟩, ?_, ?_, ?_⟩
    · intro c hc
      simp at hc
      rcases hc with rfl | rfl | rfl
      · rw [respFalsy_aCall]
        exact hA
      · rw [respFalsy_fCall]
        exact hF
      · rw [respFalsy_sCall']
        exact hS
    · intro c hc hrole
      simp at hc
      rcases hc with rfl | rfl | rfl | rfl
      · exact absurd hrole (by simp [aCall, analysisRole, editorRole])
      · exact absurd hrole (by simp [fCall, factRole, editorRole])
      · exact absurd hrole (by simp [sCall, summaryRole, editorRole])
      · exact ⟨(editorial_contains_raw _ _ _ _).1, (editorial_contains_raw _ _ _ _).2.1,
          (editorial_contains_raw _ _ _ _).2.2.1⟩
    · intro c hc hrole
      simp at hc
      rcases hc with rfl | rfl | rfl | rfl
      · rfl
      · rfl
      · rfl
      · exact absurd rfl hrole
  · refine ⟨⟨[], by simp [aCall, fCall, sCall, eCall, declaredRoles]⟩, ?_, ?_, ?_⟩
    · intro c hc
      simp at hc
      rcases hc with rfl | rfl | rfl
      · rw [respFalsy_aCall]
        exact hA
      · rw [respFalsy_fCall]
        exact hF
      · rw [respFalsy_sCall']
        exact hS
    · intro c hc hrole
      simp at hc
      rcases hc with rfl | rfl | rfl | rfl
      · exact absurd hrole (by simp [aCall, analysisRole, editorRole])
      · exact absurd hrole (by simp [fCall, factRole, editorRole])
      · exact absurd hrole (by simp [sCall, summaryRole, editorRole])
      · exact ⟨(editorial_contains_raw _ _ _ _).1, (editorial_contains_raw _ _ _ _).2.1,
          (editorial_contains_raw _ _ _ _).2.2.1⟩
    · intro c hc hrole
      simp at hc
      rcases hc with rfl | rfl | rfl | rfl
      · rfl
      · rfl
      · rfl
      · exact absurd rfl hrole

/-- C2 witness: concrete single-source run for the amended statement. -/
theorem claim_C2_witness :
    (((run_agents (fun _ => FcResponse.dict (some "DOC"))
        (fun _ _ _ => Except.ok "out") "u" "st" none).2.map StageCall.role)
      <+: declaredRoles none) ∧
    (∀ c ∈ (run_agents (fun _ => FcResponse.dict (some "DOC"))
        (fun _ _ _ => Except.ok "out") "u" "st" none).2.dropLast,
      respFalsy (fun _ _ _ => Except.ok "out") c = false) ∧
    (∀ c ∈ (run_agents (fun _ => FcResponse.dict (some "DOC"))
        (fun _ _ _ => Except.ok "out") "u" "st" none).2, c.role = editorRole →
      strContains (aOut (fun _ _ _ => Except.ok "out") "DOC") c.content ∧
      strContains (fOut (fun _ _ _ => Except.ok "out") "DOC") c.content ∧
      strContains (sOut (fun _ _ _ => Except.ok "out") "DOC") c.content) ∧
    (∀ c ∈ (run_agents (fun _ => FcResponse.dict (some "DOC"))
        (fun _ _ _ => Except.ok "out") "u" "st" none).2, c.role ≠ editorRole →
      c.content = "DOC") :=
  claim_C2 (fun _ => FcResponse.dict (some "DOC")) (fun _ _ _ => Except.ok "out")
    "u" "st" "DOC" rfl (by decide)

/-- C3 counterexample: analysis succeeds with output ALPHA, then the
fact-check stage fails with cause boom, yet run_agents returns None — the
return value carries neither the prior successful stage output nor the
failing stage's name nor the cause string, contradicting the claim that
partial results and the error are returned to the caller. -/
theorem claim_C3_counterexample :
    generate_completion
      (fun r _ _ => if r = factRole then Except.error "boom" else Except.ok "ALPHA")
      analysisRole analysisTask "X" = some "ALPHA" ∧
    respFalsy (fun r _ _ => if r = factRole then Except.error "boom" else Except.ok "ALPHA")
      (fCall "X") = true ∧
    run_agents (fun _ => FcResponse.dict (some "X"))
      (fun r _ _ => if r = factRole then Except.error "boom" else Except.ok "ALPHA")
      "u" "st" none = (none, [aCall "X", fCall "X"]) :=
  ⟨by decide, by decide, by decide⟩

/-- C3 as amended: whenever any attempted stage of a run fails, run_agents
returns None as its value — the prior successful stage outputs, the
failing stage's name and the cause string are not part of the return
value (the source only displays them through the UI layer). -/
theorem claim_C3 (fetch : String → FcResponse) (o : CompletionOracle)
    (url style : String) (su : Option String)
    (h : ∃ c ∈ (run_agents fetch o url style su).2, respFalsy o c = true) :
    (run_agents fetch o url style su).1 = none :=
  run_none_of_falsy fetch o url style su h

/-- C3 witness: the run of the counterexample oracle indeed returns None. -/
theorem claim_C3_witness :
    (run_agents (fun _ => FcResponse.dict (some "X"))
      (fun r _ _ => if r = factRole then Except.error "boom" else Except.ok "ALPHA")
      "u" "st" none).1 = none :=
  claim_C3 (fun _ => FcResponse.dict (some "X"))
    (fun r _ _ => if r = factRole then Except.error "boom" else Except.ok "ALPHA")
    "u" "st" none ⟨fCall "X", by decide, by decide⟩

/-- C5 counterexample: the completion service returns an empty but
non-error output for the analysis stage, and the run aborts right there —
result None, only the analysis invocation recorded, nothing propagated to
the fact-check stage — contradicting the claim that empty output is a
soft success propagated downstream. -/
theorem claim_C5_counterexample :
    generate_completion (fun _ _ _ => Except.ok "") analysisRole analysisTask "X"
      = some "" ∧
    run_agents (fun _ => FcResponse.dict (some "X")) (fun _ _ _ => Except.ok "")
      "u" "st" none = (none, [aCall "X"]) :=
  ⟨by decide, by decide⟩

/-- C5 as amended: in main.py's pipeline an empty (after stripping)
completion output is treated exactly like an error — the run aborts at
that stage and returns None, and the empty text is never delivered to a
later stage; separately, app.py's generate_completion converts a service
exception into the empty string rather than propagating an error value. -/
theorem claim_C5 :
    (∀ (svc : String → String → Except String String) (role prompt content e : String),
      svc (appSystemMsg role) prompt = Except.error e →
      app_generate_completion svc role prompt content = "") ∧
    (∀ (fetch : String → FcResponse) (o : CompletionOracle) (url style : String)
       (su : Option String) (c : StageCall),
      c ∈ (run_agents fetch o url style su).2 →
      generate_completion o c.role c.task c.content = some "" →
      (run_agents fetch o url style su).1 = none ∧
      ∀ c' ∈ (run_agents fetch o url style su).2.dropLast, c' ≠ c) := by
  constructor
  · intro svc role prompt content e hsvc
    simp [app_generate_completion, hsvc]
  · intro fetch o url style su c hc hEmpty
    have hresp : respFalsy o c = true := by
      rw [respFalsy, hEmpty]
      rfl
    refine ⟨run_none_of_falsy fetch o url style su ⟨c, hc, hresp⟩, ?_⟩
    intro c' hc' heq
    have hfalse := run_dropLast_truthy fetch o url style su c' hc'
    rw [heq] at hfalse
    rw [hfalse] at hresp
    exact Bool.false_ne_true hresp

/-- C5 witness: a raising service yields the empty string in app.py, and a
concrete run in which the analysis invocation on X got an empty non-error
response returns None. -/
theorem claim_C5_witness :
    app_generate_completion (fun _ _ => Except.error "down") "r" "p" "c" = "" ∧
    (run_agents (fun _ => FcResponse.dict (some "X")) (fun _ _ _ => Except.ok "")
      "u" "st" none).1 = none :=
  ⟨claim_C5.1 (fun _ _ => Except.error "down") "r" "p" "c" "down" rfl,
   (claim_C5.2 (fun _ => FcResponse.dict (some "X")) (fun _ _ _ => Except.ok "")
     "u" "st" none (aCall "X") (by decide) (by decide)).1⟩

lemma subChain_eq_of_ok (o : CompletionOracle) (sc : String) (h : subOk o sc) :
    subChain o sc =
      (some (aOut o sc, fOut o sc, sOut o sc), [aCall sc, fCall sc, sCall sc]) := by
  obtain ⟨hA, hF, hS⟩ := h
  simp [subChain, hA, hF, hS, aOut, fOut, sOut]

/-- C7: with a primary and a secondary URL both fetched successfully and
all six per-document sub-stages succeeding, each of analysis, fact check
and summary is invoked exactly once per document (first all of source 1,
then all of source 2), and the single editorial invocation comes last,
carrying for each of the three categories the first document's output
followed by the label naming the second source and then the second
document's output — source 1 before source 2, merged before synthesis. -/
theorem claim_C7 (fetch : String → FcResponse) (o : CompletionOracle)
    (url style u2 sc sc2 : String)
    (hsc : scrape_website (fetch url) = some sc) (hne : sc ≠ "")
    (hsc2 : scrape_website (fetch u2) = some sc2) (hne2 : sc2 ≠ "")
    (hok1 : subOk o sc) (hok2 : subOk o sc2) (hst : style ≠ "") :
    (run_agents fetch o url style (some u2)).2 =
      [aCall sc, fCall sc, sCall sc, aCall sc2, fCall sc2, sCall sc2,
       eCall (editorialContent
         (aOut o sc ++ secondAnalysisLabel ++ aOut o sc2)
         (fOut o sc ++ secondFactLabel ++ fOut o sc2)
         (sOut o sc ++ secondSummaryLabel ++ sOut o sc2) style)] ∧
    strContains (aOut o sc ++ secondAnalysisLabel ++ aOut o sc2)
      (editorialContent
        (aOut o sc ++ secondAnalysisLabel ++ aOut o sc2)
        (fOut o sc ++ secondFactLabel ++ fOut o sc2)
        (sOut o sc ++ secondSummaryLabel ++ sOut o sc2) style) ∧
    strContains (fOut o sc ++ secondFactLabel ++ fOut o sc2)
      (editorialContent
        (aOut o sc ++ secondAnalysisLabel ++ aOut o sc2)
        (fOut o sc ++ secondFactLabel ++ fOut o sc2)
        (sOut o sc ++ secondSummaryLabel ++ sOut o sc2) style) ∧
    strContains (sOut o sc ++ secondSummaryLabel ++ sOut o sc2)
      (editorialContent
        (aOut o sc ++ secondAnalysisLabel ++ aOut o sc2)
        (fOut o sc ++ secondFactLabel ++ fOut o sc2)
        (sOut o sc ++ secondSummaryLabel ++ sOut o sc2) style) := by
  have h1 := subChain_eq_of_ok o sc hok1
  have h2 := subChain_eq_of_ok o sc2 hok2
  have hrun := run_double_sub2Ok fetch o url style u2 sc (aOut o sc) (fOut o sc) (sOut o sc)
    sc2 (aOut o sc2) (fOut o sc2) (sOut o sc2)
    [aCall sc, fCall sc, sCall sc] [aCall sc2, fCall sc2, sCall sc2]
    hsc hne h1 hsc2 hne2 h2
  have hchar := finishRun_char o
    (aOut o sc ++ secondAnalysisLabel ++ aOut o sc2)
    (fOut o sc ++ secondFactLabel ++ fOut o sc2)
    (sOut o sc ++ secondSummaryLabel ++ sOut o sc2) style
    ([aCall sc, fCall sc, sCall sc] ++ [aCall sc2, fCall sc2, sCall sc2])
    (append3_ne_empty _ _ _ (by decide))
    (append3_ne_empty _ _ _ (by decide))
    (append3_ne_empty _ _ _ (by decide))
  refine ⟨?_, (editorial_contains_raw _ _ _ _).1, (editorial_contains_raw _ _ _ _).2.1,
    (editorial_contains_raw _ _ _ _).2.2.1⟩
  rcases hchar with ⟨hstEq, _⟩ | ⟨_, _, hEq⟩ | ⟨_, _, hEq⟩
  · exact absurd hstEq hst
  · rw [hrun, hEq]
    simp
  · rw [hrun, hEq]
    simp

/-- C7 witness: two concrete documents X1 and X2 with a completion service
echoing role and content, giving the expected seven-invocation trace with
the merged labelled blocks in source order. -/
theorem claim_C7_witness :
    (run_agents (fun u => if u = "u1" then FcResponse.dict (some "X1")
        else FcResponse.dict (some "X2"))
      (fun r _ c => Except.ok (r ++ "#" ++ c)) "u1" "st" (some "u2")).2 =
      [aCall "X1", fCall "X1", sCall "X1", aCall "X2", fCall "X2", sCall "X2",
       eCall (editorialContent
         (aOut (fun r _ c => Except.ok (r ++ "#" ++ c)) "X1" ++ secondAnalysisLabel ++
          aOut (fun r _ c => Except.ok (r ++ "#" ++ c)) "X2")
         (fOut (fun r _ c => Except.ok (r ++ "#" ++ c)) "X1" ++ secondFactLabel ++
          fOut (fun r _ c => Except.ok (r ++ "#" ++ c)) "X2")
         (sOut (fun r _ c => Except.ok (r ++ "#" ++ c)) "X1" ++ secondSummaryLabel ++
          sOut (fun r _ c => Except.ok (r ++ "#" ++ c)) "X2") "st")] :=
  (claim_C7 (fun u => if u = "u1" then FcResponse.dict (some "X1")
      else FcResponse.dict (some "X2"))
    (fun r _ c => Except.ok (r ++ "#" ++ c)) "u1" "st" "u2" "X1" "X2"
    (by decide) (by decide) (by decide) (by decide)
    (by decide) (by decide) (by decide)).1

/-- C9: the analysis prompt built by app.py's analyze_website_content
depends on the content only through its first 24000 characters (content
beyond that is silently dropped before the completion call), and the
prompt always contains the objective string and the first 24000 characters
of the content. -/
theorem claim_C9 (csvc : String → String → Except String String) (jparse : String → Bool)
    (objective role c c' : String) (opt : InstructionOption) :
    (c ≠ "" → c' ≠ "" → pyTake c 24000 = pyTake c' 24000 →
      app_analyze_website_content csvc jparse c objective role opt =
      app_analyze_website_content csvc jparse c' objective role opt) ∧
    strContains objective (fullPrompt opt objective c) ∧
    strContains (pyTake c 24000) (fullPrompt opt objective c) := by
  refine ⟨?_, ?_, ?_⟩
  · intro h1 h2 htake
    simp [app_analyze_website_content, h1, h2, fullPrompt, basePrompt, htake]
  · exact strContains_of_eq _ (taskFor opt ++ "\n\n" ++ "Ziel: ")
      ("\n\nInhalt: " ++ pyTake c 24000) _
      (by apply string_data_ext
          simp [fullPrompt, basePrompt, String.data_append, List.append_assoc])
  · exact strContains_of_eq _
      (taskFor opt ++ "\n\n" ++ ("Ziel: " ++ objective ++ "\n\nInhalt: ")) "" _
      (by apply string_data_ext
          simp [fullPrompt, basePrompt, String.data_append, List.append_assoc])

/-- C9 witness: the theorem instantiated at a concrete content and
objective. -/
theorem claim_C9_witness :
    (app_analyze_website_content (fun _ _ => Except.ok "A") (fun _ => false)
        "ab" "O" "r" InstructionOption.default =
      app_analyze_website_content (fun _ _ => Except.ok "A") (fun _ => false)
        "ab" "O" "r" InstructionOption.default) ∧
    strContains "O" (fullPrompt InstructionOption.default "O" "ab") ∧
    strContains (pyTake "ab" 24000) (fullPrompt InstructionOption.default "O" "ab") :=
  ⟨(claim_C9 (fun _ _ => Except.ok "A") (fun _ => false) "O" "r" "ab" "ab"
      InstructionOption.default).1 (by decide) (by decide) rfl,
   (claim_C9 (fun _ _ => Except.ok "A") (fun _ => false) "O" "r" "ab" "ab"
      InstructionOption.default).2.1,
   (claim_C9 (fun _ _ => Except.ok "A") (fun _ => false) "O" "r" "ab" "ab"
      InstructionOption.default).2.2⟩

/-- C10 counterexample: on a successful search, search_google returns the
raw service dict unchanged; for a service response without an objective
key, the returned dict does not carry the caller's objective under the
key objective — contradicting the claim for search_google. -/
theorem claim_C10_counterexample :
    search_google (fun _ _ _ _ => SearchOutcome.resp [("organic_results", "r1")])
      "q" "obj" "Google Search" "us" "en"
      = SearchReturn.raw [("organic_results", "r1")] ∧
    (search_google (fun _ _ _ _ => SearchOutcome.resp [("organic_results", "r1")])
      "q" "obj" "Google Search" "us" "en").objectiveVal = none :=
  ⟨by decide, by decide⟩

/-- C10 as amended: scrape_url, map_url_pages and analyze_website_content
never raise (every collaborator outcome, including a raised exception,
yields a returned dict), always preserve the objective under the objective
key, and on failure carry the error with empty or None results;
search_google never raises and returns the objective-preserving error dict
on an exception, but its success path returns the raw service dict, which
need not contain the objective key. -/
theorem claim_C10 (fc : String → FcResponse) (csvc : String → String → Except String String)
    (mapSvc : String → MapOutcome) (svc : String → String → String → String → SearchOutcome)
    (jparse : String → Bool) (url obj q styp cou lang content role : String)
    (opt : InstructionOption) :
    ((app_scrape_url fc url obj).objective = obj ∧
     ((app_scrape_url fc url obj).error.isSome → (app_scrape_url fc url obj).results = none)) ∧
    ((map_url_pages csvc mapSvc url obj).objective = obj ∧
     ((map_url_pages csvc mapSvc url obj).error.isSome →
       (map_url_pages csvc mapSvc url obj).results = [])) ∧
    ((app_analyze_website_content csvc jparse content obj role opt).objective = obj ∧
     ((app_analyze_website_content csvc jparse content obj role opt).error.isSome →
       (app_analyze_website_content csvc jparse content obj role opt).results = none)) ∧
    (∀ e, svc q cou lang (searchEngine styp) = SearchOutcome.exn e →
      search_google svc q obj styp cou lang = SearchReturn.errDict obj e) := by
  refine ⟨?_, ?_, ?_, ?_⟩
  · cases hfc : fc url with
    | exn e => simp [app_scrape_url, hfc]
    | dict md =>
      cases md with
      | none => simp [app_scrape_url, hfc]
      | some m =>
        by_cases hm : m = "" <;> simp [app_scrape_url, hfc, hm]
    | other => simp [app_scrape_url, hfc]
  · unfold map_url_pages
    cases hm : mapSvc (app_generate_completion csvc "website search query generator"
      ("Generate a 1-2 word search query for the website: " ++ url ++ " based on the objective")
      ("Objective: " ++ obj)) with
    | exn e => simp [hm]
    | resp r =>
      by_cases hs : r.success
      · cases hl : r.links with
        | nil => simp [hm, hs, hl]
        | cons top rest => simp [hm, hs, hl]
      · simp [hm, hs]
  · by_cases hc : content = "" <;> simp [app_analyze_website_content, hc]
  · intro e he
    simp [search_google, he]

/-- C10 witness: collaborator exceptions in each helper produce the
objective-preserving error dicts with empty or None results. -/
theorem claim_C10_witness :
    (app_scrape_url (fun _ => FcResponse.exn "down") "u" "obj").objective = "obj" ∧
    (app_scrape_url (fun _ => FcResponse.exn "down") "u" "obj").results = none ∧
    (map_url_pages (fun _ _ => Except.ok "q") (fun _ => MapOutcome.exn "down")
      "u" "obj").objective = "obj" ∧
    (map_url_pages (fun _ _ => Except.ok "q") (fun _ => MapOutcome.exn "down")
      "u" "obj").results = [] ∧
    (app_analyze_website_content (fun _ _ => Except.ok "A") (fun _ => false)
      "" "obj" "r" InstructionOption.default).objective = "obj" ∧
    (app_analyze_website_content (fun _ _ => Except.ok "A") (fun _ => false)
      "" "obj" "r" InstructionOption.default).results = none ∧
    search_google (fun _ _ _ _ => SearchOutcome.exn "down") "q" "obj" "Google Search"
      "us" "en" = SearchReturn.errDict "obj" "down" := by
  have h := claim_C10 (fun _ => FcResponse.exn "down") (fun _ _ => Except.ok "q")
    (fun _ => MapOutcome.exn "down") (fun _ _ _ _ => SearchOutcome.exn "down")
    (fun _ => false) "u" "obj" "q" "Google Search" "us" "en" "" "r"
    InstructionOption.default
  exact ⟨h.1.1, h.1.2 (by decide), h.2.1.1, h.2.1.2 (by decide), h.2.2.1.1,
    h.2.2.1.2 (by decide), h.2.2.2 "down" (by decide)⟩
